import Mathlib

/-!
Verification development for the `accu` repository discovery/scoring system.

Python floats are modelled exactly over `ℚ`; Python ints over `ℤ`;
timestamps at day granularity (an `Int` day number).  Fallible code is
modelled with `Option`/`Except`.  External I/O (GitHub search pages,
provider call outcomes) is passed in as data, so the functions below are
the pure core of the corresponding Python methods.
-/

/-- Quantitative metrics for a repository (`RepositoryMetrics` in
`agents/discovery/models.py`). -/
structure RepositoryMetrics where
  stars : Int
  forks : Int
  open_issues : Int
  watchers : Int
  contributors_count : Int
  commit_count_last_year : Int
  days_since_last_commit : Int
  days_since_last_release : Option Int
deriving DecidableEq

/-- Qualitative signals about a repository (`RepositorySignals`). -/
structure RepositorySignals where
  is_abandoned : Bool
  has_readme : Bool
  has_license : Bool
  has_tests : Bool
  has_ci : Bool
  has_documentation : Bool
  documentation_quality : ℚ
  code_quality_estimate : ℚ
deriving DecidableEq

/-- Calculated scores for a repository (`RepositoryScores`). -/
structure RepositoryScores where
  potential : ℚ
  revival_feasibility : ℚ
  product_fit : ℚ
deriving DecidableEq

/-- Scorer with its four configurable weights (`RepositoryScorer.__init__`). -/
structure RepositoryScorer where
  weight_quality : ℚ
  weight_uniqueness : ℚ
  weight_completeness : ℚ
  weight_effort : ℚ
deriving DecidableEq

/-- The default weights of `RepositoryScorer()` (0.30 / 0.25 / 0.25 / 0.20). -/
def defaultScorer : RepositoryScorer :=
  { weight_quality := 3/10
    weight_uniqueness := 1/4
    weight_completeness := 1/4
    weight_effort := 1/5 }

/-- `RepositoryScorer._estimate_uniqueness`: step function of the star count. -/
def RepositoryScorer.estimate_uniqueness (metrics : RepositoryMetrics) : ℚ :=
  let stars := metrics.stars
  if stars < 20 then 9/10
  else if stars < 50 then 4/5
  else if stars < 100 then 7/10
  else if stars < 200 then 3/5
  else 1/2

/-- `RepositoryScorer._calculate_completeness`: fraction of five boolean
signals that are true. -/
def RepositoryScorer.calculate_completeness (signals : RepositorySignals) : ℚ :=
  let factors := [signals.has_readme, signals.has_license, signals.has_tests,
    signals.has_ci, signals.has_documentation]
  ((factors.map (fun b => if b then (1 : ℚ) else 0)).sum) / (factors.length : ℚ)

/-- `RepositoryScorer._calculate_effort_inverse`. -/
def RepositoryScorer.calculate_effort_inverse (metrics : RepositoryMetrics)
    (signals : RepositorySignals) : ℚ :=
  let base_effort := 1 - signals.code_quality_estimate
  let base_effort := if !signals.has_tests then base_effort + 1/5 else base_effort
  let base_effort := base_effort + (1 - signals.documentation_quality) * (3/20)
  let base_effort :=
    if metrics.days_since_last_commit > 730 then base_effort + 3/20 else base_effort
  max 0 (min 1 (1 - base_effort))

/-- `RepositoryScorer._calculate_potential`: weighted combination of quality,
uniqueness, completeness and effort inverse, clamped to [0,1]. -/
def RepositoryScorer.calculate_potential (self : RepositoryScorer)
    (metrics : RepositoryMetrics) (signals : RepositorySignals) : ℚ :=
  let quality := signals.code_quality_estimate
  let uniqueness := RepositoryScorer.estimate_uniqueness metrics
  let completeness := RepositoryScorer.calculate_completeness signals
  let effort_inverse := RepositoryScorer.calculate_effort_inverse metrics signals
  let potential := self.weight_quality * quality
    + self.weight_uniqueness * uniqueness
    + self.weight_completeness * completeness
    + self.weight_effort * effort_inverse
  min 1 (max 0 potential)

/-- `RepositoryScorer._calculate_revival_feasibility`. -/
def RepositoryScorer.calculate_revival_feasibility (metrics : RepositoryMetrics)
    (signals : RepositorySignals) : ℚ :=
  let days := metrics.days_since_last_commit
  let staleness := max 0 (1 - ((days : ℚ) / 1095))
  let doc_factor := signals.documentation_quality
  let test_factor : ℚ := if signals.has_tests then 7/10 else 3/10
  let contrib_factor := min 1 ((metrics.contributors_count : ℚ) / 5)
  let feasibility := (1/4) * staleness + (3/10) * doc_factor
    + (1/4) * test_factor + (1/5) * contrib_factor
  min 1 (max 0 feasibility)

/-- `RepositoryScorer._calculate_product_fit`. -/
def RepositoryScorer.calculate_product_fit (metrics : RepositoryMetrics)
    (_signals : RepositorySignals) : ℚ :=
  let stars := metrics.stars
  let star_score : ℚ :=
    if stars < 20 then (stars : ℚ) / 20
    else if stars ≤ 200 then 1
    else max (1/2) (1 - ((stars : ℚ) - 200) / 1000)
  let fork_ratio := (metrics.forks : ℚ) / ((max 1 metrics.stars : Int) : ℚ)
  let fork_score := min 1 (fork_ratio * 5)
  let issue_score := min 1 ((metrics.open_issues : ℚ) / 20)
  let product_fit := (2/5) * star_score + (7/20) * fork_score + (1/4) * issue_score
  min 1 (max 0 product_fit)

/-- `RepositoryScorer.calculate`: all three scores for a repository. -/
def RepositoryScorer.calculate (self : RepositoryScorer)
    (metrics : RepositoryMetrics) (signals : RepositorySignals) : RepositoryScores :=
  { potential := self.calculate_potential metrics signals
    revival_feasibility := RepositoryScorer.calculate_revival_feasibility metrics signals
    product_fit := RepositoryScorer.calculate_product_fit metrics signals }

/-- Token usage statistics (`TokenUsage` in `providers/base.py`). -/
structure TokenUsage where
  prompt_tokens : Int
  completion_tokens : Int
  total_tokens : Int
deriving DecidableEq

/-- Cost breakdown in USD (`Cost` in `providers/base.py`). -/
structure Cost where
  input_cost : ℚ
  output_cost : ℚ
  total_cost : ℚ
deriving DecidableEq

/-- Response from an AI completion (`CompletionResponse`). -/
structure CompletionResponse where
  content : String
  model : String
  usage : TokenUsage
  cost : Cost
  latency_ms : Int
  provider : String
  request_id : Option String
deriving DecidableEq

/-- One usage record appended per successful completion (`UsageRecord` in
`providers/manager.py`); the `datetime.utcnow()` timestamp is modelled at
day granularity as the UTC day number. -/
structure UsageRecord where
  day : Int
  provider : String
  model : String
  prompt_tokens : Int
  completion_tokens : Int
  total_cost : ℚ
  latency_ms : Int
deriving DecidableEq

/-- `UsageTracker.record`: append one record for a completion response,
stamped with the current UTC day. -/
def UsageTracker.record (records : List UsageRecord) (today : Int)
    (response : CompletionResponse) : List UsageRecord :=
  records ++ [{ day := today
                provider := response.provider
                model := response.model
                prompt_tokens := response.usage.prompt_tokens
                completion_tokens := response.usage.completion_tokens
                total_cost := response.cost.total_cost
                latency_ms := response.latency_ms }]

/-- `UsageTracker.get_daily_cost`: sum of the costs of the records whose
timestamp falls on today's UTC date. -/
def UsageTracker.get_daily_cost (records : List UsageRecord) (today : Int) : ℚ :=
  ((records.filter (fun r => r.day == today)).map (fun r => r.total_cost)).sum

/-- Outcome of invoking one provider's `complete` on the current request:
a response, a `ProviderError` (message plus its retryable flag,
`providers/base.py`), or any other exception (message of `str(e)`). -/
inductive ProviderOutcome where
  | success (response : CompletionResponse)
  | provErr (message : String) (retryable : Bool)
  | otherErr (message : String)
deriving DecidableEq

/-- Whether the outcome is a successful completion. -/
def ProviderOutcome.isSuccess : ProviderOutcome → Bool
  | .success _ => true
  | _ => false

/-- The error message carried by a failing outcome (`str(e)`; for a
`ProviderError` this is its constructor message). -/
def ProviderOutcome.errorMessage : ProviderOutcome → String
  | .success _ => ""
  | .provErr message _ => message
  | .otherErr message => message

/-- The message of the terminal `AllProvidersFailedError` raised after the
provider loop; Python formats a `None` last error as the string "None". -/
def allFailedMessage : Option String → String
  | some m => "All providers failed. Last error: " ++ m
  | none => "All providers failed. Last error: None"

deriving instance DecidableEq for Except

/-- Observable outcome of `ProviderManager.complete`: the returned response
or the raised error message, the usage-record list afterwards, and how many
providers had `complete` invoked on them. -/
structure CompleteState where
  result : Except String CompletionResponse
  records : List UsageRecord
  providersInvoked : Nat
deriving DecidableEq

/-- `ProviderManager` state: the configured daily budget and the usage
tracker's records.  The provider objects themselves are represented by the
list of `ProviderOutcome`s their `complete` calls would produce, passed to
`ProviderManager.complete` (one entry per provider, in the fixed order
[primary, …fallbacks]; the loop calls each provider at most once). -/
structure ProviderManager where
  daily_budget_usd : ℚ
  records : List UsageRecord
deriving DecidableEq

/-- The `for provider in providers` loop of `ProviderManager.complete`:
on success, record usage and return; on a `ProviderError`, remember it as
the last error (the source's `if not e.retryable: continue` and the
fall-through for retryable errors both reach the next provider); on any
other exception, remember it and continue; when providers run out, raise
`AllProvidersFailedError` with the last error. -/
def ProviderManager.completeLoop (today : Int) (records : List UsageRecord)
    (lastError : Option String) : List ProviderOutcome → CompleteState
  | [] => { result := .error (allFailedMessage lastError)
            records := records
            providersInvoked := 0 }
  | outcome :: rest =>
    match outcome with
    | .success response =>
      { result := .ok response
        records := UsageTracker.record records today response
        providersInvoked := 1 }
    | .provErr message retryable =>
      let next :=
        if !retryable then ProviderManager.completeLoop today records (some message) rest
        else ProviderManager.completeLoop today records (some message) rest
      { next with providersInvoked := next.providersInvoked + 1 }
    | .otherErr message =>
      let next := ProviderManager.completeLoop today records (some message) rest
      { next with providersInvoked := next.providersInvoked + 1 }

/-- `ProviderManager.complete`: budget admission check first (raising
without touching any provider when today's recorded cost has reached the
daily budget), then the provider fallback loop. -/
def ProviderManager.complete (manager : ProviderManager) (today : Int)
    (outcomes : List ProviderOutcome) : CompleteState :=
  if manager.daily_budget_usd ≤ UsageTracker.get_daily_cost manager.records today then
    { result := .error ("Daily budget of $" ++ toString manager.daily_budget_usd ++ " exceeded")
      records := manager.records
      providersInvoked := 0 }
  else
    ProviderManager.completeLoop today manager.records none outcomes

/-- Whether `pat` is a prefix of `cs` (character lists). -/
def startsWithChars (pat : List Char) : List Char → Bool
  | cs =>
    match pat, cs with
    | [], _ => true
    | _ :: _, [] => false
    | p :: ps, c :: cs => p == c && startsWithChars ps cs

/-- Whether `pat` occurs as a contiguous substring of `cs`; models Python's
`sub in s` membership test on strings. -/
def containsChars (pat : List Char) : List Char → Bool
  | [] => startsWithChars pat []
  | c :: cs => startsWithChars pat (c :: cs) || containsChars pat cs

/-- Python's `sub in s` substring test. -/
def strContains (s sub : String) : Bool :=
  containsChars sub.toList s.toList

/-- ASCII lower-casing of one character (Python's `str.lower`, restricted
to ASCII, which covers the analyzer's keyword scans). -/
def charLower (c : Char) : Char :=
  if 'A' ≤ c && c ≤ 'Z' then Char.ofNat (c.toNat + 32) else c

/-- Python's `s.lower()` (ASCII). -/
def pyLower (s : String) : String :=
  String.mk (s.toList.map charLower)

/-- Python whitespace characters for `str.strip()`. -/
def isPyWs (c : Char) : Bool :=
  c == ' ' || c == '\t' || c == '\n' || c == '\r' || c == '\x0b' || c == '\x0c'

/-- Python's `s.strip()`: remove whitespace from both ends. -/
def pyStrip (s : String) : String :=
  String.mk (((s.toList.dropWhile isPyWs).reverse.dropWhile isPyWs).reverse)

/-- Split a character list on newline characters (Python's
`s.split("\n")`). -/
def splitLines : List Char → List (List Char)
  | [] => [[]]
  | '\n' :: cs => [] :: splitLines cs
  | c :: cs =>
    match splitLines cs with
    | [] => [[c]]
    | l :: ls => (c :: l) :: ls

/-- Join line fragments with newline separators (Python's
`"\n".join(lines)`). -/
def joinLines : List (List Char) → List Char
  | [] => []
  | [l] => l
  | l :: ls => l ++ '\n' :: joinLines ls

/-- JSON values, as produced by Python's `json.loads` (numbers restricted
to integers, which covers every field the analyzer reads). -/
inductive Json where
  | null
  | bool (b : Bool)
  | num (n : Int)
  | str (s : String)
  | arr (elems : List Json)
  | obj (fields : List (String × Json))

/-- Skip JSON whitespace. -/
def skipWs : List Char → List Char
  | c :: cs => if c == ' ' || c == '\n' || c == '\t' || c == '\r' then skipWs cs else c :: cs
  | [] => []

/-- Parse the remainder of a JSON string literal (opening quote already
consumed), handling the standard single-character escapes. -/
def parseStringChars : Nat → List Char → Option (List Char × List Char)
  | 0, _ => none
  | _ + 1, [] => none
  | fuel + 1, c :: cs =>
    if c == '"' then some ([], cs)
    else if c == '\\' then
      match cs with
      | e :: cs' =>
        let ec : Option Char :=
          if e == 'n' then some '\n'
          else if e == 't' then some '\t'
          else if e == 'r' then some '\r'
          else if e == '"' then some '"'
          else if e == '\\' then some '\\'
          else if e == '/' then some '/'
          else if e == 'b' then some (Char.ofNat 8)
          else if e == 'f' then some (Char.ofNat 12)
          else none
        match ec with
        | some ch => (parseStringChars fuel cs').map (fun p => (ch :: p.1, p.2))
        | none => none
      | [] => none
    else (parseStringChars fuel cs).map (fun p => (c :: p.1, p.2))

/-- Parse a run of decimal digits into an accumulator. -/
def parseDigits (acc : Int) : List Char → Int × List Char
  | c :: cs =>
    if c.isDigit then parseDigits (acc * 10 + ((c.toNat : Int) - 48)) cs
    else (acc, c :: cs)
  | [] => (acc, [])

/-- Parse a nonempty run of decimal digits. -/
def parseNatNum : List Char → Option (Int × List Char)
  | c :: cs => if c.isDigit then some (parseDigits 0 (c :: cs)) else none
  | [] => none

/-- Parser mode: one value, the members of an object (wrapped as `.obj`),
or the elements of an array (wrapped as `.arr`). -/
inductive ParseMode where
  | value
  | members
  | elems

/-- Recursive-descent JSON parser; the fuel bounds the nesting depth and is
chosen large enough for the whole input in `json_loads`. -/
def parseCore : Nat → ParseMode → List Char → Option (Json × List Char)
  | 0, _, _ => none
  | fuel + 1, .value, input =>
    match skipWs input with
    | [] => none
    | c :: cs =>
      if c == '"' then
        (parseStringChars (fuel + 1) cs).map (fun p => (.str (String.mk p.1), p.2))
      else if c == '{' then
        match skipWs cs with
        | '}' :: r => some (.obj [], r)
        | rest => parseCore fuel .members rest
      else if c == '[' then
        match skipWs cs with
        | ']' :: r => some (.arr [], r)
        | rest => parseCore fuel .elems rest
      else if c == 't' then
        match cs with
        | 'r' :: 'u' :: 'e' :: r => some (.bool true, r)
        | _ => none
      else if c == 'f' then
        match cs with
        | 'a' :: 'l' :: 's' :: 'e' :: r => some (.bool false, r)
        | _ => none
      else if c == 'n' then
        match cs with
        | 'u' :: 'l' :: 'l' :: r => some (.null, r)
        | _ => none
      else if c == '-' then
        match parseNatNum cs with
        | some (n, r) => some (.num (-n), r)
        | none => none
      else if c.isDigit then
        match parseNatNum (c :: cs) with
        | some (n, r) => some (.num n, r)
        | none => none
      else none
  | fuel + 1, .members, input =>
    match skipWs input with
    | '"' :: cs =>
      match parseStringChars (fuel + 1) cs with
      | some (key, rest) =>
        match skipWs rest with
        | ':' :: rest2 =>
          match parseCore fuel .value rest2 with
          | some (v, rest3) =>
            match skipWs rest3 with
            | ',' :: rest4 =>
              match parseCore fuel .members rest4 with
              | some (.obj fs, r) => some (.obj ((String.mk key, v) :: fs), r)
              | _ => none
            | '}' :: rest4 => some (.obj [(String.mk key, v)], rest4)
            | _ => none
          | none => none
        | _ => none
      | none => none
    | _ => none
  | fuel + 1, .elems, input =>
    match parseCore fuel .value input with
    | some (v, rest) =>
      match skipWs rest with
      | ',' :: rest2 =>
        match parseCore fuel .elems rest2 with
        | some (.arr es, r) => some (.arr (v :: es), r)
        | _ => none
      | ']' :: rest2 => some (.arr [v], rest2)
      | _ => none
    | none => none

/-- Models Python's `json.loads` (for the JSON shapes the analyzer reads):
parse one value, requiring only whitespace to remain; `none` models a
raised `json.JSONDecodeError`. -/
def json_loads (s : String) : Option Json :=
  let cs := s.toList
  match parseCore (2 * cs.length + 2) .value cs with
  | some (v, rest) => if skipWs rest == [] then some v else none
  | none => none

/-- AI-generated analysis of a repository (`AIAnalysis` in
`agents/discovery/models.py`). -/
structure AIAnalysis where
  summary : String
  strengths : List String
  weaknesses : List String
  revival_recommendation : String
  estimated_effort_hours : Option Int
  target_audience : String
deriving DecidableEq

/-- `data.get(key)` on a parsed JSON object; later duplicate keys win, as
in a Python dict built by `json.loads`. -/
def jsonLookup (fields : List (String × Json)) (key : String) : Option Json :=
  match fields.reverse.find? (fun f => f.1 == key) with
  | some f => some f.2
  | none => none

/-- `data.get(key, default)` for a string-valued field; a present
non-string value makes the `AIAnalysis` construction fail (in Python a
pydantic validation error, swallowed one level up). -/
def jsonGetString (fields : List (String × Json)) (key : String)
    (dflt : String) : Option String :=
  match jsonLookup fields key with
  | none => some dflt
  | some (.str s) => some s
  | some _ => none

/-- `data.get(key, [])` for a list-of-strings field. -/
def jsonGetStringList (fields : List (String × Json)) (key : String) :
    Option (List String) :=
  match jsonLookup fields key with
  | none => some []
  | some (.arr es) => es.mapM (fun e => match e with | .str s => some s | _ => none)
  | some _ => none

/-- `data.get(key)` for the optional integer effort field. -/
def jsonGetOptInt (fields : List (String × Json)) (key : String) :
    Option (Option Int) :=
  match jsonLookup fields key with
  | none => some none
  | some .null => some none
  | some (.num n) => some (some n)
  | some _ => none

/-- The markdown code-fence stripping step of
`RepositoryAnalyzer._parse_ai_response`: when the (already stripped)
content starts with three backticks, drop the first and last lines. -/
def stripCodeFence (content : String) : String :=
  let cs := content.toList
  if startsWithChars "```".toList cs then
    String.mk (joinLines ((splitLines cs).drop 1).dropLast)
  else content

/-- `RepositoryAnalyzer._parse_ai_response`: strip surrounding whitespace,
strip a markdown code fence, JSON-parse, and build an `AIAnalysis` with
per-field defaults; `none` models every failure path (in Python either the
caught `JSONDecodeError`/`KeyError` or an exception swallowed by
`_ai_analyze`). -/
def RepositoryAnalyzer.parse_ai_response (content : String) : Option AIAnalysis :=
  let content := pyStrip content
  let content := stripCodeFence content
  match json_loads content with
  | some (.obj fields) =>
    match jsonGetString fields "summary" "", jsonGetStringList fields "strengths",
      jsonGetStringList fields "weaknesses",
      jsonGetString fields "revival_recommendation" "",
      jsonGetOptInt fields "estimated_effort_hours",
      jsonGetString fields "target_audience" "" with
    | some su, some st, some we, some rr, some eh, some ta =>
      some { summary := su, strengths := st, weaknesses := we,
             revival_recommendation := rr, estimated_effort_hours := eh,
             target_audience := ta }
    | _, _, _, _, _, _ => none
  | _ => none

/-- `RepositoryAnalyzer._update_signals_from_ai`: scan the lower-cased
recommendation for "low"/"medium"/"high" to set the code-quality estimate
(0.8/0.6/0.4), flip `has_tests` on a "test" mention in any strength, and
recompute `documentation_quality` from doc mentions, clamped to [0,1]. -/
def RepositoryAnalyzer.update_signals_from_ai (signals : RepositorySignals)
    (ai : AIAnalysis) : RepositorySignals :=
  let recommendation := pyLower ai.revival_recommendation
  let code_quality_estimate :=
    if strContains recommendation "low" then (4/5 : ℚ)
    else if strContains recommendation "medium" then 3/5
    else if strContains recommendation "high" then 2/5
    else signals.code_quality_estimate
  let has_tests :=
    signals.has_tests || ai.strengths.any (fun s => strContains (pyLower s) "test")
  let doc_mentions : Int :=
    ((ai.strengths.filter (fun s => strContains (pyLower s) "doc")).length : Int)
    - ((ai.weaknesses.filter (fun w => strContains (pyLower w) "doc")).length : Int)
  { signals with
    code_quality_estimate := code_quality_estimate
    has_tests := has_tests
    documentation_quality := min 1 (max 0 (1/2 + (doc_mentions : ℚ) * (1/5))) }

/-- Days since 1970-01-01 of a civil date (proleptic Gregorian). -/
def toDayNumber (y m d : Int) : Int :=
  let y := if m ≤ 2 then y - 1 else y
  let era := (if y ≥ 0 then y else y - 399) / 400
  let yoe := y - era * 400
  let mp := (m + 9) % 12
  let doy := (153 * mp + 2) / 5 + d - 1
  let doe := yoe * 365 + yoe / 4 - yoe / 100 + doy
  era * 146097 + doe - 719468

/-- Models `datetime.fromisoformat` at day granularity: read the leading
`YYYY-MM-DD` of an ISO-8601 timestamp as a day number; `none` models a
raised `ValueError` on malformed input. -/
def parseIsoDay (s : String) : Option Int :=
  match s.toList with
  | y1 :: y2 :: y3 :: y4 :: '-' :: m1 :: m2 :: '-' :: d1 :: d2 :: _ =>
    if [y1, y2, y3, y4, m1, m2, d1, d2].all Char.isDigit then
      let dv : Char → Int := fun c => (c.toNat : Int) - 48
      some (toDayNumber (dv y1 * 1000 + dv y2 * 100 + dv y3 * 10 + dv y4)
        (dv m1 * 10 + dv m2) (dv d1 * 10 + dv d2))
    else none
  | _ => none

/-- The fields of a GitHub repository record (the `repo` dict) that the
discovery pipeline reads.  `license` is `some spdx` when the license
object is present (its inner `spdx_id` may itself be absent). -/
structure Repo where
  html_url : String
  owner_login : String
  name : String
  full_name : String
  description : Option String
  language : Option String
  license : Option (Option String)
  created_at : Option String
  pushed_at : Option String
  topics : List String
  has_readme_field : Bool
deriving DecidableEq

/-- `RepositoryAnalyzer._calculate_signals`: cheap signals from repository
metadata.  `nowDay` is the current UTC day (`datetime.now`); abandonment
means the last push was more than 365 days ago, and an unparseable push
date is swallowed, leaving `is_abandoned` false. -/
def RepositoryAnalyzer.calculate_signals (repo : Repo) (nowDay : Int) :
    RepositorySignals :=
  let has_readme := repo.has_readme_field || repo.description.isSome
  let has_license := repo.license.isSome
  let is_abandoned :=
    match repo.pushed_at with
    | none => false
    | some s =>
      match parseIsoDay s with
      | none => false
      | some d => nowDay - d > 365
  { is_abandoned := is_abandoned
    has_readme := has_readme
    has_license := has_license
    has_tests := false
    has_ci := false
    has_documentation := has_readme
    documentation_quality := if has_readme then 1/2 else 0
    code_quality_estimate := 1/2 }

/-- Python truthiness of an optional string (`if readme_content:`). -/
def optStrTruthy : Option String → Bool
  | some s => !(s == "")
  | none => false

/-- `RepositoryAnalyzer.analyze`: always compute metadata signals; when
README analysis is enabled and README content is (truthily) present, run
the AI analysis — `aiContent` is the outcome of the provider-manager
completion call (`.error` models a raised exception, swallowed by
`_ai_analyze`) — and fold a successful parse back into the signals. -/
def RepositoryAnalyzer.analyze (analyze_readme : Bool) (repo : Repo)
    (readme_content : Option String) (nowDay : Int)
    (aiContent : Except String String) :
    RepositorySignals × Option AIAnalysis :=
  let signals := RepositoryAnalyzer.calculate_signals repo nowDay
  if analyze_readme && optStrTruthy readme_content then
    let ai :=
      match aiContent with
      | .error _ => none
      | .ok content => RepositoryAnalyzer.parse_ai_response content
    match ai with
    | some a => (RepositoryAnalyzer.update_signals_from_ai signals a, some a)
    | none => (signals, none)
  else (signals, none)

/-- One page of responses from the GitHub search endpoint: HTTP status and
the `items` array. -/
structure SearchPage where
  status_code : Nat
  items : List Repo
deriving DecidableEq

/-- The `while` pagination loop of `GitHubScanner._search_repos`, over the
successive page responses the endpoint returns: stop and return on a 403
(`# Rate limited`), raise via `raise_for_status()` on any other 4xx/5xx,
stop on an empty page or a short page, and stop once `max_results` items
are accumulated; the final result is truncated to `max_results`.
Exhausting `pages` models the endpoint with no further pages. -/
def searchReposLoop (maxResults perPage : Nat) (repos : List Repo) :
    List SearchPage → Except String (List Repo)
  | [] => .ok (repos.take maxResults)
  | page :: rest =>
    if repos.length < maxResults then
      if page.status_code == 403 then .ok (repos.take maxResults)
      else if 400 ≤ page.status_code then
        .error ("HTTP " ++ toString page.status_code)
      else if page.items.isEmpty then .ok (repos.take maxResults)
      else
        let repos := repos ++ page.items
        if page.items.length < perPage then .ok (repos.take maxResults)
        else searchReposLoop maxResults perPage repos rest
    else .ok (repos.take maxResults)

/-- `GitHubScanner._search_repos`: paginate one search query with
`per_page = min(100, max_results)`, starting from an empty accumulator. -/
def GitHubScanner.search_repos (pages : List SearchPage) (maxResults : Nat) :
    Except String (List Repo) :=
  searchReposLoop maxResults (min 100 maxResults) [] pages

/-- A repository together with the outcome its `scanner.get_metrics` call
would produce for it; `.error` models an exception raised inside the `try`
block of `DiscoveryAgent._process_repository` (metrics fetching being its
fallible external call). -/
structure RepoTask where
  repo : Repo
  metricsResult : Except String RepositoryMetrics
deriving DecidableEq

/-- A discovered candidate (`DiscoveryCandidate`); the review-lifecycle
fields and the wall-clock `discovered_at` are omitted (the pipeline only
ever writes their defaults). -/
structure DiscoveryCandidate where
  github_url : String
  owner : String
  name : String
  description : Option String
  language : Option String
  license : Option String
  created_at : Option String
  pushed_at : Option String
  topics : List String
  metrics : RepositoryMetrics
  signals : RepositorySignals
  scores : RepositoryScores
  ai_analysis : Option AIAnalysis
  discovery_strategy : Option String
  run_id : Option String
deriving DecidableEq

/-- `DiscoveryAgent._process_repository`: fetch metrics, analyze (called as
`analyze(repo)`, so with no README content and hence no completion call),
score with the agent's default-weight scorer, and build the candidate; any
exception is caught at this per-repository boundary and yields `none`. -/
def DiscoveryAgent.process_repository (analyze_readme : Bool) (nowDay : Int)
    (task : RepoTask) (strategy runId : String) : Option DiscoveryCandidate :=
  match task.metricsResult with
  | .error _ => none
  | .ok metrics =>
    let analyzed :=
      RepositoryAnalyzer.analyze analyze_readme task.repo none nowDay (.error "")
    let signals := analyzed.1
    let ai_analysis := analyzed.2
    let scores := defaultScorer.calculate metrics signals
    some { github_url := task.repo.html_url
           owner := task.repo.owner_login
           name := task.repo.name
           description := task.repo.description
           language := task.repo.language
           license := task.repo.license.bind id
           created_at := task.repo.created_at
           pushed_at := task.repo.pushed_at
           topics := task.repo.topics
           metrics := metrics
           signals := signals
           scores := scores
           ai_analysis := ai_analysis
           discovery_strategy := some strategy
           run_id := some runId }

/-- The candidate-acceptance statement of `DiscoveryAgent.run`:
`if candidate and candidate.scores.potential >= 0.5:
candidates.append(candidate)`. -/
def DiscoveryAgent.acceptStep (candidates : List DiscoveryCandidate) :
    Option DiscoveryCandidate → List DiscoveryCandidate
  | some c => if (1/2 : ℚ) ≤ c.scores.potential then candidates ++ [c] else candidates
  | none => candidates

/-- The inner `for repo in repos` loop of `DiscoveryAgent.run`: stop once
the run-wide candidate cap is reached, otherwise process each repository
and apply the acceptance step. -/
def DiscoveryAgent.processRepos (analyze_readme : Bool) (nowDay : Int)
    (strategy runId : String) (maxRepos : Nat)
    (candidates : List DiscoveryCandidate) :
    List RepoTask → List DiscoveryCandidate
  | [] => candidates
  | task :: rest =>
    if maxRepos ≤ candidates.length then candidates
    else
      DiscoveryAgent.processRepos analyze_readme nowDay strategy runId maxRepos
        (DiscoveryAgent.acceptStep candidates
          (DiscoveryAgent.process_repository analyze_readme nowDay task strategy runId))
        rest

/-- The search results of one strategy: the strategy name and the
repository list its (successful) `scanner.search` returned, each
repository paired with its metrics outcome. -/
structure StrategySearch where
  strategy : String
  tasks : List RepoTask
deriving DecidableEq

/-- The outer `for strat in strategies` loop of `DiscoveryAgent.run`:
accumulate candidates across strategies and count scanned repositories. -/
def DiscoveryAgent.runStrategies (analyze_readme : Bool) (nowDay : Int)
    (runId : String) (maxRepos : Nat)
    (candidates : List DiscoveryCandidate) (scanned : Nat) :
    List StrategySearch → List DiscoveryCandidate × Nat
  | [] => (candidates, scanned)
  | s :: rest =>
    let scanned := scanned + s.tasks.length
    let candidates :=
      DiscoveryAgent.processRepos analyze_readme nowDay s.strategy runId maxRepos
        candidates s.tasks
    DiscoveryAgent.runStrategies analyze_readme nowDay runId maxRepos
      candidates scanned rest

/-- Result of a discovery run (`DiscoveryRunResult`), restricted to the
fields the orchestration writes. -/
structure DiscoveryRunResult where
  run_id : String
  status : String
  repos_scanned : Nat
  candidates_found : Nat
  candidates : List DiscoveryCandidate
  error : Option String
deriving DecidableEq

/-- `DiscoveryAgent.run` for a run whose searches succeed (their results
are the `searches` input; search failures would take the run-level
`except` branch, which no claim here exercises): process every strategy in
order and terminate with status "completed". -/
def DiscoveryAgent.run (analyze_readme : Bool) (nowDay : Int) (runId : String)
    (maxRepos : Nat) (searches : List StrategySearch) : DiscoveryRunResult :=
  let looped :=
    DiscoveryAgent.runStrategies analyze_readme nowDay runId maxRepos [] 0 searches
  { run_id := runId
    status := "completed"
    repos_scanned := looped.2
    candidates_found := looped.1.length
    candidates := looped.1
    error := none }

/-- The golden-fixture metrics from the spec's scenario: stars=10, forks=1,
open_issues=2, contributors=1, days_since_last_commit=400. -/
def fixtureMetrics : RepositoryMetrics :=
  { stars := 10
    forks := 1
    open_issues := 2
    watchers := 0
    contributors_count := 1
    commit_count_last_year := 0
    days_since_last_commit := 400
    days_since_last_release := none }

/-- The golden-fixture signals: no tests, no CI, readme and license present
(hence, per the pipeline, documentation present with quality 0.5),
code_quality_estimate=0.5. -/
def fixtureSignals : RepositorySignals :=
  { is_abandoned := true
    has_readme := true
    has_license := true
    has_tests := false
    has_ci := false
    has_documentation := true
    documentation_quality := 1/2
    code_quality_estimate := 1/2 }

/-- A fenced AI response with a mixed-case "Medium effort" recommendation. -/
def fencedMediumResponse : String :=
  "```json\n\x7b\"revival_recommendation\": \"Medium effort\"\x7d\n```"

/-- The analysis parsed from `fencedMediumResponse` (absent fields default). -/
def mediumAnalysis : AIAnalysis :=
  { summary := ""
    strengths := []
    weaknesses := []
    revival_recommendation := "Medium effort"
    estimated_effort_hours := none
    target_audience := "" }

/-- A concrete completion response, used as a fallback provider's answer. -/
def exResponse : CompletionResponse :=
  { content := "ok"
    model := "m1"
    usage := { prompt_tokens := 10, completion_tokens := 5, total_tokens := 15 }
    cost := { input_cost := 1/100, output_cost := 1/100, total_cost := 1/50 }
    latency_ms := 120
    provider := "fallback-a"
    request_id := none }

/-- A usage record of cost $60 on day 20000. -/
def exSpentRecord : UsageRecord :=
  { day := 20000
    provider := "primary"
    model := "m0"
    prompt_tokens := 100
    completion_tokens := 50
    total_cost := 60
    latency_ms := 80 }

/-- A manager whose $50 daily budget is already exceeded on day 20000. -/
def overBudgetManager : ProviderManager :=
  { daily_budget_usd := 50, records := [exSpentRecord] }

/-- A manager with a fresh usage tracker and a $50 daily budget. -/
def freshManager : ProviderManager :=
  { daily_budget_usd := 50, records := [] }

/-- A concrete repository record. -/
def exRepo : Repo :=
  { html_url := "https://github.com/alice/widget"
    owner_login := "alice"
    name := "widget"
    full_name := "alice/widget"
    description := some "a widget"
    language := some "python"
    license := some (some "MIT")
    created_at := some "2019-01-01T00:00:00Z"
    pushed_at := some "2023-05-01T12:00:00Z"
    topics := ["cli"]
    has_readme_field := false }

/-- `exRepo` with successfully fetched golden-fixture metrics. -/
def exTask : RepoTask :=
  { repo := exRepo, metricsResult := .ok fixtureMetrics }

/-- `exRepo` whose metrics fetch raised an exception. -/
def badTask : RepoTask :=
  { repo := exRepo, metricsResult := .error "GitHub API error" }

/-- The candidate `DiscoveryAgent._process_repository` builds from
`exTask` on day 19900 under strategy "abandoned_stars" in run "run-1". -/
def exCandidate : DiscoveryCandidate :=
  { github_url := "https://github.com/alice/widget"
    owner := "alice"
    name := "widget"
    description := some "a widget"
    language := some "python"
    license := some "MIT"
    created_at := some "2019-01-01T00:00:00Z"
    pushed_at := some "2023-05-01T12:00:00Z"
    topics := ["cli"]
    metrics := fixtureMetrics
    signals := RepositoryAnalyzer.calculate_signals exRepo 19900
    scores := defaultScorer.calculate fixtureMetrics
      (RepositoryAnalyzer.calculate_signals exRepo 19900)
    ai_analysis := none
    discovery_strategy := some "abandoned_stars"
    run_id := some "run-1" }

/-- A candidate whose potential is exactly the 0.5 threshold. -/
def halfCandidate : DiscoveryCandidate :=
  { exCandidate with
    scores := { potential := 1/2, revival_feasibility := 0, product_fit := 0 } }

/-- A candidate whose potential is 0.4999, just below the threshold. -/
def nearCandidate : DiscoveryCandidate :=
  { exCandidate with
    scores := { potential := 4999/10000, revival_feasibility := 0, product_fit := 0 } }

/-- The invariant every pipeline-produced candidate satisfies: no AI
analysis and the metadata-derived default signals. -/
def metadataDefaults (c : DiscoveryCandidate) : Prop :=
  c.ai_analysis = none ∧ c.signals.code_quality_estimate = 1/2
    ∧ c.signals.has_tests = false ∧ c.signals.has_ci = false

theorem clamp_unit_interval (x : ℚ) : 0 ≤ min 1 (max 0 x) ∧ min 1 (max 0 x) ≤ 1 :=
  ⟨le_min (by norm_num) (le_max_left 0 x), min_le_left 1 _⟩

/-- C1: for every `RepositoryMetrics` and `RepositorySignals` input, including
negative and arbitrarily large field values (and for any scorer weights,
covering the default-weight scorer), each of the three fields of the
`RepositoryScores` returned by `RepositoryScorer.calculate` lies in the
closed interval [0,1]. -/
theorem c1_scores_clamped (self : RepositoryScorer) (metrics : RepositoryMetrics)
    (signals : RepositorySignals) :
    (0 ≤ (self.calculate metrics signals).potential
      ∧ (self.calculate metrics signals).potential ≤ 1)
    ∧ (0 ≤ (self.calculate metrics signals).revival_feasibility
      ∧ (self.calculate metrics signals).revival_feasibility ≤ 1)
    ∧ (0 ≤ (self.calculate metrics signals).product_fit
      ∧ (self.calculate metrics signals).product_fit ≤ 1) :=
  ⟨clamp_unit_interval _, clamp_unit_interval _, clamp_unit_interval _⟩

/-- C9: on the golden fixture (stars=10, forks=1, open_issues=2,
contributors=1, days_since_last_commit=400, no tests, no CI, readme and
license present, code_quality_estimate=0.5) the scorer's intermediate terms
are completeness=0.6, uniqueness=0.9 and staleness=max(0,1-400/1095), and the
resulting potential and revival_feasibility equal the specified weighted
combinations of those terms. -/
theorem c9_golden_fixture :
    RepositoryScorer.calculate_completeness fixtureSignals = 3/5
    ∧ RepositoryScorer.estimate_uniqueness fixtureMetrics = 9/10
    ∧ (defaultScorer.calculate fixtureMetrics fixtureSignals).potential
        = min 1 (max 0 ((3/10) * (1/2) + (1/4) * (9/10) + (1/4) * (3/5)
            + (1/5) * (max 0 (min 1 (1 - ((1 - 1/2) + 1/5 + (1 - 1/2) * (3/20)))))))
    ∧ (defaultScorer.calculate fixtureMetrics fixtureSignals).revival_feasibility
        = min 1 (max 0 ((1/4) * (max 0 (1 - 400/1095)) + (3/10) * (1/2)
            + (1/4) * (3/10) + (1/5) * (min 1 ((1 : ℚ)/5)))) := by
  refine ⟨?_, ?_, ?_, ?_⟩ <;>
    norm_num [RepositoryScorer.calculate, RepositoryScorer.calculate_potential,
      RepositoryScorer.calculate_revival_feasibility,
      RepositoryScorer.calculate_completeness, RepositoryScorer.estimate_uniqueness,
      RepositoryScorer.calculate_effort_inverse, defaultScorer, fixtureMetrics,
      fixtureSignals, min_def, max_def, List.sum_cons, List.sum_nil]

/-- C2: for every request, if the sum of today's recorded usage costs has
reached the configured daily budget, `ProviderManager.complete` fails
immediately by raising, invoking no provider and appending no usage
record. -/
theorem c2_budget_admission (manager : ProviderManager) (today : Int)
    (outcomes : List ProviderOutcome)
    (h : manager.daily_budget_usd ≤ UsageTracker.get_daily_cost manager.records today) :
    (manager.complete today outcomes).result
        = .error ("Daily budget of $" ++ toString manager.daily_budget_usd ++ " exceeded")
    ∧ (manager.complete today outcomes).records = manager.records
    ∧ (manager.complete today outcomes).providersInvoked = 0 := by
  simp [ProviderManager.complete, if_pos h]

theorem c2_budget_admission_witness :
    overBudgetManager.daily_budget_usd
        ≤ UsageTracker.get_daily_cost overBudgetManager.records 20000
    ∧ ((overBudgetManager.complete 20000 [.success exResponse]).result
        = .error ("Daily budget of $" ++ toString overBudgetManager.daily_budget_usd
            ++ " exceeded")
      ∧ (overBudgetManager.complete 20000 [.success exResponse]).records
          = overBudgetManager.records
      ∧ (overBudgetManager.complete 20000 [.success exResponse]).providersInvoked = 0) :=
  have h : overBudgetManager.daily_budget_usd
      ≤ UsageTracker.get_daily_cost overBudgetManager.records 20000 := by
    simp [overBudgetManager, exSpentRecord, UsageTracker.get_daily_cost]
    decide
  ⟨h, c2_budget_admission overBudgetManager 20000 [.success exResponse] h⟩

/-- C3: if the budget is not exhausted, the primary fails with a retryable
error and the first fallback succeeds, then `ProviderManager.complete`
returns the fallback's response, appends exactly one usage record (the
fallback's), and invokes no provider after the first success, whatever
providers follow. -/
theorem c3_fallback_success (manager : ProviderManager) (today : Int)
    (message : String) (response : CompletionResponse) (rest : List ProviderOutcome)
    (h : UsageTracker.get_daily_cost manager.records today < manager.daily_budget_usd) :
    (manager.complete today (.provErr message true :: .success response :: rest)).result
        = .ok response
    ∧ (manager.complete today (.provErr message true :: .success response :: rest)).records
        = manager.records ++ [{ day := today
                                provider := response.provider
                                model := response.model
                                prompt_tokens := response.usage.prompt_tokens
                                completion_tokens := response.usage.completion_tokens
                                total_cost := response.cost.total_cost
                                latency_ms := response.latency_ms }]
    ∧ (manager.complete today (.provErr message true :: .success response :: rest)).providersInvoked
        = 2 := by
  simp [ProviderManager.complete, if_neg (not_le.mpr h), ProviderManager.completeLoop,
    UsageTracker.record]

theorem c3_fallback_success_witness :
    UsageTracker.get_daily_cost freshManager.records 20000 < freshManager.daily_budget_usd
    ∧ ((freshManager.complete 20000
          (.provErr "rate limited" true :: .success exResponse :: [])).result
        = .ok exResponse
      ∧ (freshManager.complete 20000
          (.provErr "rate limited" true :: .success exResponse :: [])).records
          = freshManager.records ++ [{ day := 20000
                                       provider := exResponse.provider
                                       model := exResponse.model
                                       prompt_tokens := exResponse.usage.prompt_tokens
                                       completion_tokens := exResponse.usage.completion_tokens
                                       total_cost := exResponse.cost.total_cost
                                       latency_ms := exResponse.latency_ms }]
      ∧ (freshManager.complete 20000
          (.provErr "rate limited" true :: .success exResponse :: [])).providersInvoked = 2) :=
  have h : UsageTracker.get_daily_cost freshManager.records 20000
      < freshManager.daily_budget_usd := by
    simp [freshManager, UsageTracker.get_daily_cost]
  ⟨h, c3_fallback_success freshManager 20000 "rate limited" exResponse [] h⟩

theorem completeLoop_all_fail (today : Int) (records : List UsageRecord) :
    ∀ (outcomes : List ProviderOutcome) (lastError : Option String)
      (hne : outcomes ≠ [])
      (_ : ∀ o ∈ outcomes, o.isSuccess = false),
    ProviderManager.completeLoop today records lastError outcomes
      = { result := .error (allFailedMessage (some ((outcomes.getLast hne).errorMessage)))
          records := records
          providersInvoked := outcomes.length } := by
  intro outcomes
  induction outcomes with
  | nil => intro lastError hne _; exact absurd rfl hne
  | cons o rest ih =>
    intro lastError hne hfail
    cases rest with
    | nil =>
      cases o with
      | success r =>
        exact absurd (hfail (ProviderOutcome.success r) (List.mem_cons_self _ _))
          (by simp [ProviderOutcome.isSuccess])
      | provErr m r =>
        simp [ProviderManager.completeLoop, allFailedMessage, ProviderOutcome.errorMessage]
      | otherErr m =>
        simp [ProviderManager.completeLoop, allFailedMessage, ProviderOutcome.errorMessage]
    | cons o2 rest2 =>
      have hrest : (o2 :: rest2 : List ProviderOutcome) ≠ [] := by simp
      have hfail2 : ∀ x ∈ (o2 :: rest2 : List ProviderOutcome), x.isSuccess = false := by
        intro x hx; exact hfail x (by simp [hx])
      have key := ih (some (o.errorMessage)) hrest hfail2
      have hlast : (o :: o2 :: rest2 : List ProviderOutcome).getLast hne
          = (o2 :: rest2 : List ProviderOutcome).getLast hrest := by
        simp [List.getLast_cons]
      cases o with
      | success r =>
        exact absurd (hfail (ProviderOutcome.success r) (List.mem_cons_self _ _))
          (by simp [ProviderOutcome.isSuccess])
      | provErr m r =>
        have unfold1 : ProviderManager.completeLoop today records lastError
            (ProviderOutcome.provErr m r :: o2 :: rest2)
            = { result := (if !r then ProviderManager.completeLoop today records (some m)
                    (o2 :: rest2)
                  else ProviderManager.completeLoop today records (some m) (o2 :: rest2)).result
                records := (if !r then ProviderManager.completeLoop today records (some m)
                    (o2 :: rest2)
                  else ProviderManager.completeLoop today records (some m) (o2 :: rest2)).records
                providersInvoked := (if !r then ProviderManager.completeLoop today records
                    (some m) (o2 :: rest2)
                  else ProviderManager.completeLoop today records (some m)
                    (o2 :: rest2)).providersInvoked + 1 } := rfl
        rw [unfold1, ite_self]
        rw [show ProviderOutcome.errorMessage (.provErr m r) = m from rfl] at key
        rw [key]
        simp [hlast]
      | otherErr m =>
        have unfold1 : ProviderManager.completeLoop today records lastError
            (ProviderOutcome.otherErr m :: o2 :: rest2)
            = { result := (ProviderManager.completeLoop today records (some m)
                  (o2 :: rest2)).result
                records := (ProviderManager.completeLoop today records (some m)
                  (o2 :: rest2)).records
                providersInvoked := (ProviderManager.completeLoop today records (some m)
                  (o2 :: rest2)).providersInvoked + 1 } := rfl
        rw [unfold1]
        rw [show ProviderOutcome.errorMessage (.otherErr m) = m from rfl] at key
        rw [key]
        simp [hlast]

/-- C4: on every provider failure, retryable or not,
`ProviderManager.complete` advances to the next provider in the fixed order;
only after every provider has been tried and failed does it raise the
terminal all-providers-failed error, carrying the last error's message, with
no usage record appended. -/
theorem c4_all_providers_failed (manager : ProviderManager) (today : Int)
    (outcomes : List ProviderOutcome)
    (hbudget : UsageTracker.get_daily_cost manager.records today < manager.daily_budget_usd)
    (hne : outcomes ≠ [])
    (hfail : ∀ o ∈ outcomes, o.isSuccess = false) :
    (manager.complete today outcomes).result
        = .error (allFailedMessage (some ((outcomes.getLast hne).errorMessage)))
    ∧ (manager.complete today outcomes).records = manager.records
    ∧ (manager.complete today outcomes).providersInvoked = outcomes.length := by
  simp [ProviderManager.complete, if_neg (not_le.mpr hbudget),
    completeLoop_all_fail today manager.records outcomes none hne hfail]

theorem c4_all_providers_failed_witness :
    UsageTracker.get_daily_cost freshManager.records 20000 < freshManager.daily_budget_usd
    ∧ (([.provErr "bad request" false, .otherErr "boom"] : List ProviderOutcome) ≠ [])
    ∧ ((freshManager.complete 20000 [.provErr "bad request" false, .otherErr "boom"]).result
        = .error (allFailedMessage (some ((([.provErr "bad request" false,
            .otherErr "boom"] : List ProviderOutcome).getLast (by simp)).errorMessage)))
      ∧ (freshManager.complete 20000
          [.provErr "bad request" false, .otherErr "boom"]).records = freshManager.records
      ∧ (freshManager.complete 20000
          [.provErr "bad request" false, .otherErr "boom"]).providersInvoked
        = ([.provErr "bad request" false, .otherErr "boom"] : List ProviderOutcome).length) :=
  have h : UsageTracker.get_daily_cost freshManager.records 20000
      < freshManager.daily_budget_usd := by
    simp [freshManager, UsageTracker.get_daily_cost]
  ⟨h, by simp,
    c4_all_providers_failed freshManager 20000 [.provErr "bad request" false, .otherErr "boom"]
      h (by simp) (by decide)⟩

/-- C6: the candidate acceptance boundary of `DiscoveryAgent.run` is
inclusive: a processed candidate whose potential equals exactly 0.5 is
appended to the run's candidate list, and one whose potential is strictly
below 0.5 (e.g. 0.4999) is rejected. -/
theorem c6_threshold_inclusive (candidates : List DiscoveryCandidate)
    (c : DiscoveryCandidate) :
    (c.scores.potential = 1/2 →
      DiscoveryAgent.acceptStep candidates (some c) = candidates ++ [c])
    ∧ (c.scores.potential < 1/2 →
      DiscoveryAgent.acceptStep candidates (some c) = candidates) := by
  constructor
  · intro h
    simp [DiscoveryAgent.acceptStep, h]
  · intro h
    simp [DiscoveryAgent.acceptStep]
    simpa using h

theorem c6_threshold_inclusive_witness :
    halfCandidate.scores.potential = 1/2
    ∧ DiscoveryAgent.acceptStep [] (some halfCandidate) = [] ++ [halfCandidate]
    ∧ nearCandidate.scores.potential < 1/2
    ∧ DiscoveryAgent.acceptStep [] (some nearCandidate) = [] :=
  have h1 : halfCandidate.scores.potential = 1/2 := rfl
  have h2 : nearCandidate.scores.potential < 1/2 := by norm_num [nearCandidate]
  ⟨h1, (c6_threshold_inclusive [] halfCandidate).1 h1, h2,
    (c6_threshold_inclusive [] nearCandidate).2 h2⟩

/-- C7 counterexample: a 429 rate-limit response does NOT stop pagination
with partial results — `GitHubScanner._search_repos` raises on it via
`raise_for_status()`, failing the whole search. -/
theorem c7_rate_limit_counterexample :
    GitHubScanner.search_repos [{ status_code := 429, items := [] }] 1
      = .error "HTTP 429" := by
  decide

/-- C7 amended: during a paginated repository search, a 403 rate-limit
response stops pagination and makes the search return the partial results
accumulated so far, while a 429 response raises and fails the whole
search. -/
theorem c7_rate_limit_amended (maxResults perPage : Nat) (repos items : List Repo)
    (pages : List SearchPage) (h : repos.length < maxResults) :
    searchReposLoop maxResults perPage repos
        ({ status_code := 403, items := items } :: pages) = .ok repos
    ∧ searchReposLoop maxResults perPage repos
        ({ status_code := 429, items := items } :: pages) = .error "HTTP 429" := by
  constructor
  · simp [searchReposLoop, h, List.take_of_length_le h.le]
  · simp [searchReposLoop, h]
    rfl

theorem c7_rate_limit_amended_witness :
    ([] : List Repo).length < 1
    ∧ (searchReposLoop 1 1 [] ({ status_code := 403, items := [] } :: []) = .ok []
      ∧ searchReposLoop 1 1 [] ({ status_code := 429, items := [] } :: [])
          = .error "HTTP 429") :=
  ⟨by decide, c7_rate_limit_amended 1 1 [] [] [] (by decide)⟩

/-- C8: when the AI analysis response is a JSON object wrapped in a markdown
code fence and its revival_recommendation contains the mixed-case substring
"Medium effort", parsing succeeds (the fence is stripped before JSON
parsing) and signal refinement sets code_quality_estimate to exactly 0.6;
in general the recommendation is scanned case-insensitively for
"low"/"medium"/"high" (in that priority order) yielding 0.8/0.6/0.4. -/
theorem c8_fenced_medium_effort :
    (RepositoryAnalyzer.parse_ai_response fencedMediumResponse = some mediumAnalysis
      ∧ mediumAnalysis.revival_recommendation = "Medium effort"
      ∧ ∀ signals : RepositorySignals,
          (RepositoryAnalyzer.update_signals_from_ai signals
            mediumAnalysis).code_quality_estimate = 3/5)
    ∧ ∀ (signals : RepositorySignals) (ai : AIAnalysis),
        (strContains (pyLower ai.revival_recommendation) "low" = true →
          (RepositoryAnalyzer.update_signals_from_ai signals ai).code_quality_estimate = 4/5)
        ∧ (strContains (pyLower ai.revival_recommendation) "low" = false →
           strContains (pyLower ai.revival_recommendation) "medium" = true →
          (RepositoryAnalyzer.update_signals_from_ai signals ai).code_quality_estimate = 3/5)
        ∧ (strContains (pyLower ai.revival_recommendation) "low" = false →
           strContains (pyLower ai.revival_recommendation) "medium" = false →
           strContains (pyLower ai.revival_recommendation) "high" = true →
          (RepositoryAnalyzer.update_signals_from_ai signals ai).code_quality_estimate
            = 2/5) := by
  constructor
  · refine ⟨by decide, rfl, ?_⟩
    intro signals
    have h1 : strContains (pyLower "Medium effort") "low" = false := by decide
    have h2 : strContains (pyLower "Medium effort") "medium" = true := by decide
    simp [RepositoryAnalyzer.update_signals_from_ai, mediumAnalysis, h1, h2]
  · intro signals ai
    refine ⟨?_, ?_, ?_⟩
    · intro h1
      simp [RepositoryAnalyzer.update_signals_from_ai, h1]
    · intro h1 h2
      simp [RepositoryAnalyzer.update_signals_from_ai, h1, h2]
    · intro h1 h2 h3
      simp [RepositoryAnalyzer.update_signals_from_ai, h1, h2, h3]

theorem c8_fenced_medium_effort_witness :
    strContains (pyLower mediumAnalysis.revival_recommendation) "low" = false
    ∧ strContains (pyLower mediumAnalysis.revival_recommendation) "medium" = true
    ∧ (RepositoryAnalyzer.update_signals_from_ai fixtureSignals
        mediumAnalysis).code_quality_estimate = 3/5 :=
  ⟨by decide, by decide,
    ((c8_fenced_medium_effort.2 fixtureSignals mediumAnalysis).2.1 (by decide) (by decide))⟩

theorem process_repository_error_none (analyze_readme : Bool) (nowDay : Int)
    (task : RepoTask) (strategy runId emsg : String)
    (h : task.metricsResult = .error emsg) :
    DiscoveryAgent.process_repository analyze_readme nowDay task strategy runId = none := by
  simp [DiscoveryAgent.process_repository, h]

theorem processRepos_skip_none (analyze_readme : Bool) (nowDay : Int)
    (strategy runId : String) (maxRepos : Nat) (bad : RepoTask) (post : List RepoTask)
    (hbad : DiscoveryAgent.process_repository analyze_readme nowDay bad strategy runId
      = none) :
    ∀ (pre : List RepoTask) (candidates : List DiscoveryCandidate),
    DiscoveryAgent.processRepos analyze_readme nowDay strategy runId maxRepos candidates
        (pre ++ bad :: post)
      = DiscoveryAgent.processRepos analyze_readme nowDay strategy runId maxRepos candidates
        (pre ++ post) := by
  intro pre
  induction pre with
  | nil =>
    intro candidates
    by_cases h : maxRepos ≤ candidates.length
    · cases post with
      | nil => simp [DiscoveryAgent.processRepos, h]
      | cons t ts => simp [DiscoveryAgent.processRepos, h]
    · simp [DiscoveryAgent.processRepos, h, hbad, DiscoveryAgent.acceptStep]
  | cons t pre' ih =>
    intro candidates
    by_cases h : maxRepos ≤ candidates.length
    · simp [DiscoveryAgent.processRepos, h]
    · simp only [List.cons_append, DiscoveryAgent.processRepos, if_neg h]
      exact ih _

theorem runStrategies_fst_ignores_scanned (analyze_readme : Bool) (nowDay : Int)
    (runId : String) (maxRepos : Nat) :
    ∀ (searches : List StrategySearch) (candidates : List DiscoveryCandidate)
      (s1 s2 : Nat),
    (DiscoveryAgent.runStrategies analyze_readme nowDay runId maxRepos candidates s1
        searches).1
      = (DiscoveryAgent.runStrategies analyze_readme nowDay runId maxRepos candidates s2
        searches).1 := by
  intro searches
  induction searches with
  | nil => intro candidates s1 s2; rfl
  | cons s rest ih =>
    intro candidates s1 s2
    simp only [DiscoveryAgent.runStrategies]
    exact ih _ _ _

/-- C5: a failure raised while processing one repository is caught at the
per-repository boundary: the repository is skipped (the run's candidate list
is exactly that of the same run without the failing repository), all
remaining repositories of that strategy and of later strategies are still
processed, and the run terminates with status "completed", not "failed". -/
theorem c5_per_repo_failure_skipped (analyze_readme : Bool) (nowDay : Int)
    (runId : String) (maxRepos : Nat) (strat emsg : String) (bad : RepoTask)
    (pre post : List RepoTask) (rest : List StrategySearch)
    (hbad : bad.metricsResult = .error emsg) :
    (DiscoveryAgent.run analyze_readme nowDay runId maxRepos
        ({ strategy := strat, tasks := pre ++ bad :: post } :: rest)).status = "completed"
    ∧ (DiscoveryAgent.run analyze_readme nowDay runId maxRepos
        ({ strategy := strat, tasks := pre ++ bad :: post } :: rest)).candidates
      = (DiscoveryAgent.run analyze_readme nowDay runId maxRepos
        ({ strategy := strat, tasks := pre ++ post } :: rest)).candidates := by
  constructor
  · rfl
  · have hnone : DiscoveryAgent.process_repository analyze_readme nowDay bad strat runId
        = none :=
      process_repository_error_none analyze_readme nowDay bad strat runId emsg hbad
    simp only [DiscoveryAgent.run, DiscoveryAgent.runStrategies]
    rw [processRepos_skip_none analyze_readme nowDay strat runId maxRepos bad post
      hnone pre []]
    exact runStrategies_fst_ignores_scanned analyze_readme nowDay runId maxRepos rest _ _ _

theorem c5_per_repo_failure_skipped_witness :
    badTask.metricsResult = .error "GitHub API error"
    ∧ ((DiscoveryAgent.run true 19900 "run-1" 50
          ({ strategy := "abandoned_stars", tasks := [] ++ badTask :: [exTask] } :: [])).status
        = "completed"
      ∧ (DiscoveryAgent.run true 19900 "run-1" 50
          ({ strategy := "abandoned_stars", tasks := [] ++ badTask :: [exTask] } :: [])).candidates
        = (DiscoveryAgent.run true 19900 "run-1" 50
          ({ strategy := "abandoned_stars", tasks := [] ++ [exTask] } :: [])).candidates) :=
  ⟨rfl, c5_per_repo_failure_skipped true 19900 "run-1" 50 "abandoned_stars"
    "GitHub API error" badTask [] [exTask] [] rfl⟩

theorem process_repository_metadata_defaults {analyze_readme : Bool} {nowDay : Int}
    {task : RepoTask} {strategy runId : String} {c : DiscoveryCandidate}
    (h : DiscoveryAgent.process_repository analyze_readme nowDay task strategy runId
      = some c) :
    metadataDefaults c := by
  unfold DiscoveryAgent.process_repository at h
  cases hm : task.metricsResult with
  | error e => rw [hm] at h; exact absurd h (by simp)
  | ok m =>
    rw [hm] at h
    simp only [Option.some.injEq] at h
    subst h
    refine ⟨?_, ?_, ?_, ?_⟩ <;>
      simp [RepositoryAnalyzer.analyze, optStrTruthy,
        RepositoryAnalyzer.calculate_signals]

theorem acceptStep_mem (candidates : List DiscoveryCandidate)
    (opt : Option DiscoveryCandidate) (c : DiscoveryCandidate)
    (h : c ∈ DiscoveryAgent.acceptStep candidates opt) :
    c ∈ candidates ∨ opt = some c := by
  cases opt with
  | none => exact .inl h
  | some d =>
    by_cases hp : (1/2 : ℚ) ≤ d.scores.potential
    · simp only [DiscoveryAgent.acceptStep, if_pos hp] at h
      rcases List.mem_append.mp h with h1 | h2
      · exact .inl h1
      · exact .inr (by simp at h2; rw [h2])
    · simp only [DiscoveryAgent.acceptStep, if_neg hp] at h
      exact .inl h

theorem processRepos_mem (analyze_readme : Bool) (nowDay : Int)
    (strategy runId : String) (maxRepos : Nat) :
    ∀ (tasks : List RepoTask) (candidates : List DiscoveryCandidate)
      (c : DiscoveryCandidate),
    c ∈ DiscoveryAgent.processRepos analyze_readme nowDay strategy runId maxRepos
        candidates tasks →
    c ∈ candidates ∨ ∃ t, DiscoveryAgent.process_repository analyze_readme nowDay t
        strategy runId = some c := by
  intro tasks
  induction tasks with
  | nil => intro candidates c h; exact .inl h
  | cons t ts ih =>
    intro candidates c h
    by_cases hm : maxRepos ≤ candidates.length
    · simp only [DiscoveryAgent.processRepos, if_pos hm] at h
      exact .inl h
    · simp only [DiscoveryAgent.processRepos, if_neg hm] at h
      rcases ih _ _ h with h1 | h2
      · rcases acceptStep_mem _ _ _ h1 with h3 | h4
        · exact .inl h3
        · exact .inr ⟨t, h4⟩
      · exact .inr h2

theorem runStrategies_mem (analyze_readme : Bool) (nowDay : Int) (runId : String)
    (maxRepos : Nat) :
    ∀ (searches : List StrategySearch) (candidates : List DiscoveryCandidate)
      (scanned : Nat) (c : DiscoveryCandidate),
    c ∈ (DiscoveryAgent.runStrategies analyze_readme nowDay runId maxRepos candidates
        scanned searches).1 →
    c ∈ candidates ∨ ∃ s t, DiscoveryAgent.process_repository analyze_readme nowDay t s
        runId = some c := by
  intro searches
  induction searches with
  | nil => intro candidates scanned c h; exact .inl h
  | cons s rest ih =>
    intro candidates scanned c h
    simp only [DiscoveryAgent.runStrategies] at h
    rcases ih _ _ _ h with h1 | h2
    · rcases processRepos_mem analyze_readme nowDay s.strategy runId maxRepos
        _ _ _ h1 with h3 | ⟨t, h4⟩
      · exact .inl h3
      · exact .inr ⟨s.strategy, t, h4⟩
    · exact .inr h2

/-- C10: `DiscoveryAgent.run` invokes the analyzer with no README content,
so the AI-analysis branch is never taken: every candidate a run produces has
`ai_analysis` absent and keeps the metadata-derived defaults
(code_quality_estimate = 0.5, has_tests = false, has_ci = false). -/
theorem c10_no_ai_analysis_in_runs (analyze_readme : Bool) (nowDay : Int)
    (runId : String) (maxRepos : Nat) (searches : List StrategySearch)
    (c : DiscoveryCandidate)
    (hc : c ∈ (DiscoveryAgent.run analyze_readme nowDay runId maxRepos
      searches).candidates) :
    c.ai_analysis = none ∧ c.signals.code_quality_estimate = 1/2
      ∧ c.signals.has_tests = false ∧ c.signals.has_ci = false := by
  have hmem : c ∈ (DiscoveryAgent.runStrategies analyze_readme nowDay runId maxRepos
      [] 0 searches).1 := hc
  rcases runStrategies_mem analyze_readme nowDay runId maxRepos searches [] 0 c hmem
    with h1 | ⟨s, t, h2⟩
  · exact absurd h1 (by simp)
  · exact process_repository_metadata_defaults h2

theorem c10_no_ai_analysis_in_runs_witness :
    exCandidate ∈ (DiscoveryAgent.run true 19900 "run-1" 50
        [{ strategy := "abandoned_stars", tasks := [exTask] }]).candidates
    ∧ (exCandidate.ai_analysis = none
      ∧ exCandidate.signals.code_quality_estimate = 1/2
      ∧ exCandidate.signals.has_tests = false ∧ exCandidate.signals.has_ci = false) :=
  have hmem : exCandidate ∈ (DiscoveryAgent.run true 19900 "run-1" 50
      [{ strategy := "abandoned_stars", tasks := [exTask] }]).candidates := by
    norm_num [DiscoveryAgent.run, DiscoveryAgent.runStrategies,
      DiscoveryAgent.processRepos, DiscoveryAgent.process_repository,
      DiscoveryAgent.acceptStep, RepositoryAnalyzer.analyze, optStrTruthy, exTask,
      exRepo, exCandidate, defaultScorer, RepositoryScorer.calculate,
      RepositoryScorer.calculate_potential, RepositoryScorer.calculate_completeness,
      RepositoryScorer.estimate_uniqueness, RepositoryScorer.calculate_effort_inverse,
      RepositoryScorer.calculate_revival_feasibility,
      RepositoryScorer.calculate_product_fit, RepositoryAnalyzer.calculate_signals,
      min_def, max_def, List.sum_cons, List.sum_nil, fixtureMetrics]
  ⟨hmem, c10_no_ai_analysis_in_runs true 19900 "run-1" 50
    [{ strategy := "abandoned_stars", tasks := [exTask] }] exCandidate hmem⟩
